import Mathlib

/-!
Verification of the hebrew-subtitles Chrome extension against its design
specification.

Shallow embedding of the relevant source functions:
* `extension/offscreen.js` — the capturer: `findClusterOffset`,
  the `mediaRecorder.ondataavailable` handler (WebM header splicing),
  `arrayBufferToBase64`, `stopCapture`.
* `background.js` (`src/unnamed/part_000`) — the controller/transport:
  `openWebSocket` (7 s connect timeout, exponential reconnect backoff),
  `stopCapture`, `handleAudioChunk` (base64 decode), `handleServerMessage`.
* `extension/contentScript.js` — the caption renderer: `showSubtitle`,
  the `SUBTITLE` message listener.

Binary data (`ArrayBuffer`/`Uint8Array`) is modelled as `List Nat` with every
entry `< 256`; JS strings are modelled as `List Char` (or `List Nat` of char
codes where only codes matter, as in the base64 path).
-/

namespace HebrewSubtitles

/-! Section: Capturer: `findClusterOffset` (offscreen.js)

Source: scan `view` for the WebM Cluster ID bytes `0x1F 0x43 0xB6 0x75`,
with `i` ranging over `0 ≤ i < len - 3`; return the first match index, else
`-1`. -/

def findClusterOffsetAux : List Nat → Nat → Int
  | [], _ => -1
  | a :: rest, i =>
    match rest with
    | b :: c :: d :: _ =>
      if a = 0x1F ∧ b = 0x43 ∧ c = 0xB6 ∧ d = 0x75 then (i : Int)
      else findClusterOffsetAux rest (i + 1)
    | _ => -1

def findClusterOffset (view : List Nat) : Int :=
  findClusterOffsetAux view 0

/-! Section: Capturer: the `ondataavailable` handler (offscreen.js)

State held by `startCapture`'s closure: `webmHeader` (module level, reset to
`null` at start) and `chunkIndex` (starts at 0). On each data event with a
non-empty block:
* `dataToSend` starts as the raw block;
* if `chunkIndex === 0`: find the cluster offset; when it is `> 0`, cache
  `webmHeader = block.slice(0, clusterOffset)`; the first block itself is sent
  raw;
* else: when a header is cached, `dataToSend = webmHeader ++ block`;
* `chunkIndex` increments with each sent block. -/

structure RecState where
  webmHeader : Option (List Nat)
  chunkIndex : Nat
deriving DecidableEq, Repr

def recInitial : RecState := ⟨none, 0⟩

def ondataavailable (s : RecState) (block : List Nat) : RecState × Option (List Nat) :=
  if block.length < 1 then (s, none)
  else
    let dataToSend :=
      if s.chunkIndex = 0 then block
      else
        match s.webmHeader with
        | some h => h ++ block
        | none => block
    let header :=
      if s.chunkIndex = 0 then
        let off := findClusterOffset block
        if 0 < off then some (block.take off.toNat) else s.webmHeader
      else s.webmHeader
    (⟨header, s.chunkIndex + 1⟩, some dataToSend)

/-- Run the recorder over a sequence of produced blocks, collecting the
payloads sent downstream in order. -/
def runBlocks (s : RecState) : List (List Nat) → RecState × List (List Nat)
  | [] => (s, [])
  | b :: bs =>
    let step := ondataavailable s b
    let rest := runBlocks step.1 bs
    (rest.1, step.2.toList ++ rest.2)

/-! Section: Base64 (offscreen.js `arrayBufferToBase64`, background `handleAudioChunk`)

`arrayBufferToBase64` builds a binary string with `String.fromCharCode` over
the bytes (identity on char codes) and applies `btoa`; `handleAudioChunk`
applies `atob` and reads the bytes back with `charCodeAt`. We model both
`btoa` and `atob` on lists of char codes. -/

/-- The base64 alphabet as ASCII codes: index 0–25 ↦ `A`–`Z`, 26–51 ↦
`a`–`z`, 52–61 ↦ `0`–`9`, 62 ↦ `+`, 63 ↦ `/`. -/
def b64Alphabet (n : Nat) : Nat :=
  if n < 26 then 65 + n
  else if n < 52 then 97 + (n - 26)
  else if n < 62 then 48 + (n - 52)
  else if n = 62 then 43
  else 47

/-- Inverse table of the base64 alphabet (on alphabet characters). -/
def b64Inv (c : Nat) : Nat :=
  if 65 ≤ c ∧ c ≤ 90 then c - 65
  else if 97 ≤ c ∧ c ≤ 122 then 26 + (c - 97)
  else if 48 ≤ c ∧ c ≤ 57 then 52 + (c - 48)
  else if c = 43 then 62
  else 63

/-- ASCII code of the base64 padding character `=`. -/
def b64Pad : Nat := 61

/-- Model of `btoa` on a binary string (list of char codes, each `< 256`): groups of
three bytes become four alphabet characters; a trailing group of one or two
bytes is padded with `=`. -/
def btoaList : List Nat → List Nat
  | [] => []
  | [b1] => [b64Alphabet (b1 / 4), b64Alphabet (b1 % 4 * 16), b64Pad, b64Pad]
  | [b1, b2] =>
    [b64Alphabet (b1 / 4), b64Alphabet (b1 % 4 * 16 + b2 / 16),
     b64Alphabet (b2 % 16 * 4), b64Pad]
  | b1 :: b2 :: b3 :: rest =>
    b64Alphabet (b1 / 4) :: b64Alphabet (b1 % 4 * 16 + b2 / 16) ::
    b64Alphabet (b2 % 16 * 4 + b3 / 64) :: b64Alphabet (b3 % 64) ::
    btoaList rest

/-- Model of `atob` on a base64 string: each group of four characters yields three
bytes, or fewer at the end when padded with `=`. -/
def atobList : List Nat → List Nat
  | c1 :: c2 :: c3 :: c4 :: rest =>
    if c3 = b64Pad then
      [b64Inv c1 * 4 + b64Inv c2 / 16]
    else if c4 = b64Pad then
      [b64Inv c1 * 4 + b64Inv c2 / 16, b64Inv c2 % 16 * 16 + b64Inv c3 / 4]
    else
      (b64Inv c1 * 4 + b64Inv c2 / 16) ::
      (b64Inv c2 % 16 * 16 + b64Inv c3 / 4) ::
      (b64Inv c3 % 4 * 64 + b64Inv c4) ::
      atobList rest
  | _ => []

/-- Source `arrayBufferToBase64` (offscreen.js): `String.fromCharCode` over the bytes
is the identity on codes, then `btoa`. -/
def arrayBufferToBase64 (buffer : List Nat) : List Nat :=
  btoaList buffer

/-- The decode loop in `handleAudioChunk` (background): `atob`, then
`charCodeAt` into a `Uint8Array` — identity on the decoded codes. -/
def decodeChunkBytes (chunkBase64 : List Nat) : List Nat :=
  atobList chunkBase64

/-! Section: Capturer: `stopCapture` (offscreen.js)

Module state: `mediaRecorder` (with its recorder state), `webmHeader`,
`liveAudio`, `captureStream` (we keep its track count). `stopCapture` stops a
non-inactive recorder, nulls the recorder and header, pauses and drops the
live-audio element, and stops every track of a still-held stream before
nulling it. We log the number of `recorder.stop()` and `track.stop()` calls
the invocation performs. -/

inductive RecorderRunState
  | inactive
  | recording
  | paused
deriving DecidableEq, Repr

structure OffState where
  mediaRecorder : Option RecorderRunState
  webmHeader : Option (List Nat)
  liveAudio : Bool
  captureStream : Option Nat
deriving DecidableEq, Repr

def offInitial : OffState := ⟨none, none, false, none⟩

structure StopLog where
  recorderStops : Nat
  trackStops : Nat
deriving DecidableEq, Repr

def offStopCapture (s : OffState) : OffState × StopLog :=
  let recorderStops :=
    match s.mediaRecorder with
    | some rs => if rs ≠ RecorderRunState.inactive then 1 else 0
    | none => 0
  let trackStops :=
    match s.captureStream with
    | some n => n
    | none => 0
  (⟨none, none, false, none⟩, ⟨recorderStops, trackStops⟩)

/-! Section: Controller/transport state (background.js, `src/unnamed/part_000`)

Module state: `socket` (we record the `attempt` value captured by the live
socket's handlers; `none` models `socket = null`), `currentTabId`, `config`
(not needed by any claim), `wsReconnectTimer` (we record the scheduled delay
and the `attempt + 1` value the timer's callback will pass to
`openWebSocket`), `isRunning`, plus the persisted `running` storage flag. -/

structure BgState where
  isRunning : Bool
  socketAttempt : Option Nat
  wsReconnectTimer : Option (Nat × Nat)
  storageRunning : Bool
  currentTabId : Option Nat
deriving DecidableEq, Repr

def bgInitial : BgState := ⟨false, none, none, false, none⟩

/-- Source expression `Math.min(2000 * 2 ** attempt, 12000)` from `ws.onclose`. -/
def backoffDelay (attempt : Nat) : Nat :=
  min (2000 * 2 ^ attempt) 12000

/-- Source `stopCapture(reason)` (background): set `isRunning = false`, clear the
reconnect timer, send `STOP_CAPTURE` to the offscreen document, close and null
the socket, persist `running: false`, and ask the tab to clear subtitles
(`currentTabId` itself is left as is). -/
def bgStopCapture (s : BgState) : BgState :=
  { s with
    isRunning := false
    wsReconnectTimer := none
    socketAttempt := none
    storageRunning := false }

/-- Events delivered to the background event loop that the reconnect logic
reacts to: the live socket's `onclose` firing, the pending reconnect timer
firing, the socket's `onopen` firing, and a stop request. -/
inductive BgEvent
  | socketClose
  | reconnectFire
  | socketOpen
  | stopCapture
deriving DecidableEq, Repr

/-- One event-handler step. The second component logs the `attempt` values of
the `openWebSocket` calls the step performs (a reconnection attempt firing).

* `socketClose`: `ws.onclose` — `if (!isRunning) return;` else schedule a
  reconnect after `backoffDelay attempt` that will call
  `openWebSocket(url, attempt + 1)`, where `attempt` is the value captured by
  this socket's closure.
* `reconnectFire`: the `setTimeout` callback — the timer is consumed; the
  callback does `if (!isRunning) return;` and otherwise calls
  `openWebSocket(url, attempt + 1)`, installing a new socket whose handlers
  capture that attempt value.
* `socketOpen`: `ws.onopen` only clears the connect timer and notifies
  status; none of the modelled fields change.
* `stopCapture`: the background `stopCapture`. -/
def bgStepLog (s : BgState) : BgEvent → BgState × List Nat
  | BgEvent.socketClose =>
    match s.socketAttempt with
    | none => (s, [])
    | some a =>
      if s.isRunning then
        ({ s with wsReconnectTimer := some (backoffDelay a, a + 1) }, [])
      else (s, [])
  | BgEvent.reconnectFire =>
    match s.wsReconnectTimer with
    | none => (s, [])
    | some (_, a) =>
      if s.isRunning then
        ({ s with wsReconnectTimer := none, socketAttempt := some a }, [a])
      else ({ s with wsReconnectTimer := none }, [])
  | BgEvent.socketOpen => (s, [])
  | BgEvent.stopCapture => (bgStopCapture s, [])

/-- Run a sequence of events, concatenating the logs of reconnection attempts
that fired. -/
def bgRunLog (s : BgState) : List BgEvent → BgState × List Nat
  | [] => (s, [])
  | e :: es =>
    let step := bgStepLog s e
    let rest := bgRunLog step.1 es
    (rest.1, step.2 ++ rest.2)

/-! Section: Transport open with 7 s timeout (background `openWebSocket`)

`openWebSocket` races the socket's first settle event (`onopen` resolves,
`onerror` rejects with `"failed"`) against a `setTimeout` of 7000 ms that
closes the socket and rejects with `"timeout"`. We model the attempt by the
time-ordered list of settle events the socket would deliver; only the first
one matters (later handler invocations hit an already-settled promise). -/

inductive ConnEvt
  | opened
  | errored
deriving DecidableEq, Repr

def wsConnectTimeoutMs : Nat := 7000

def settleOpen : List (Nat × ConnEvt) → Except String Unit
  | [] => Except.error "timeout"
  | (t, e) :: _ =>
    if t < wsConnectTimeoutMs then
      match e with
      | ConnEvt.opened => Except.ok ()
      | ConnEvt.errored => Except.error "failed"
    else Except.error "timeout"

/-! Section: Controller `startCapture` and the `START_CAPTURE` handler (background)

The environment supplies the outcomes of the external await points: the
active-tab query, the socket's settle events, `getMediaStreamId`, and the
offscreen document's acknowledgment (`none` models no response). -/

structure StartEnv where
  activeTab : Option Nat
  connEvents : List (Nat × ConnEvt)
  streamId : Except String Nat
  offscreenAck : Option (Except String Unit)

/-- Source `startCapture(cfg)` (background): an already-running session is stopped
first; `isRunning` is set `true`; the flow then awaits, in order, the
active-tab query, `openWebSocket` (the socket variable is assigned the new
socket — attempt 0 — before the promise settles), `getMediaStreamId`, and the
offscreen acknowledgment; the first failure makes `startCapture` throw with
that message, with no rollback of the state mutated so far. On full success
the durable `running` flag is set. -/
def startCapture (s : BgState) (env : StartEnv) : BgState × Except String Unit :=
  let s1 := if s.isRunning then bgStopCapture s else s
  let s2 := { s1 with isRunning := true }
  match env.activeTab with
  | none => (s2, Except.error "No active tab found")
  | some tabId =>
    let s3 := { s2 with currentTabId := some tabId, socketAttempt := some 0 }
    match settleOpen env.connEvents with
    | Except.error e => (s3, Except.error e)
    | Except.ok _ =>
      match env.streamId with
      | Except.error e => (s3, Except.error e)
      | Except.ok _ =>
        match env.offscreenAck with
        | some (Except.ok _) => ({ s3 with storageRunning := true }, Except.ok ())
        | some (Except.error e) => (s3, Except.error ("Offscreen failed: " ++ e))
        | none => (s3, Except.error "Offscreen failed: no response")

structure StartResponse where
  ok : Bool
  error : Option String
deriving DecidableEq, Repr

/-- The `START_CAPTURE` message listener: `startCapture(...).then(() =>
sendResponse({ok: true})).catch((e) => sendResponse({ok: false, error:
e.message}))`. -/
def handleStartMessage (s : BgState) (env : StartEnv) : BgState × StartResponse :=
  match startCapture s env with
  | (s', Except.ok _) => (s', ⟨true, none⟩)
  | (s', Except.error e) => (s', ⟨false, some e⟩)

/-! Section: Inbound subtitle events (background `handleServerMessage`) -/

/-- JavaScript `String.prototype.trim` whitespace for the characters that can
occur here (space, tab, LF, CR). -/
def jsWhitespace (c : Char) : Bool :=
  c == ' ' || c == '\t' || c == '\n' || c == '\r'

/-- Model of `text.trim()`: strip leading and trailing whitespace. -/
def jsTrim (s : List Char) : List Char :=
  ((s.dropWhile jsWhitespace).reverse.dropWhile jsWhitespace).reverse

/-- A parsed inbound JSON record: its `event` tag and its `text` field
(`none` models an absent/undefined field). The numeric fields play no role in
the guard and are omitted. -/
structure ServerMsg where
  event : List Char
  text : Option (List Char)

/-- Source `handleServerMessage` after a successful `JSON.parse`: the guard
`msg.event === 'subtitle' && msg.text && msg.text.trim()` (an empty string and
an undefined field are falsy, and so is an all-whitespace `trim()` result);
when it passes, the untrimmed `msg.text` is relayed to the tab as a `SUBTITLE`
message (and as a preview). We return the relayed text, `none` when nothing is
relayed. -/
def handleServerMessage (msg : ServerMsg) : Option (List Char) :=
  if msg.event = "subtitle".toList then
    match msg.text with
    | some t => if t ≠ [] ∧ jsTrim t ≠ [] then some t else none
    | none => none
  else none

/-! Section: Caption renderer (contentScript.js) -/

structure RendererState where
  visible : Bool
  shownText : List Char
  hideTimer : Option Nat
deriving DecidableEq, Repr

/-- Source expression `Math.max(2500, text.length * 55)` from `showSubtitle`. -/
def captionDurationMs (text : List Char) : Nat :=
  max 2500 (text.length * 55)

/-- Source `showSubtitle(text)`: set the caption text, make the overlay visible, and
`clearTimeout` the previous hide timer before arming a fresh one for
`captionDurationMs text`. -/
def showSubtitle (_st : RendererState) (text : List Char) : RendererState :=
  ⟨true, text, some (captionDurationMs text)⟩

/-- The content script's `SUBTITLE` branch: `if (msg.text?.trim())
showSubtitle(msg.text.trim())`. -/
def rendererOnSubtitle (st : RendererState) (text : Option (List Char)) : RendererState :=
  match text with
  | some t => if jsTrim t ≠ [] then showSubtitle st (jsTrim t) else st
  | none => st

/-! Section: Helper lemmas -/

theorem b64Inv_b64Alphabet : ∀ s : Nat, s < 64 → b64Inv (b64Alphabet s) = s := by
  decide

theorem b64Alphabet_ne_pad : ∀ s : Nat, s < 64 → b64Alphabet s ≠ b64Pad := by
  decide

theorem atobList_btoaList :
    ∀ l : List Nat, (∀ b ∈ l, b < 256) → atobList (btoaList l) = l
  | [], _ => rfl
  | [b1], h => by
    have hb1 : b1 < 256 := h b1 (by simp)
    have h1 : b1 / 4 < 64 := by omega
    have h2 : b1 % 4 * 16 < 64 := by omega
    simp only [btoaList, atobList, if_pos rfl]
    rw [b64Inv_b64Alphabet _ h1, b64Inv_b64Alphabet _ h2]
    have e1 : b1 / 4 * 4 + b1 % 4 * 16 / 16 = b1 := by omega
    rw [e1]
    simp
  | [b1, b2], h => by
    have hb1 : b1 < 256 := h b1 (by simp)
    have hb2 : b2 < 256 := h b2 (by simp)
    have h1 : b1 / 4 < 64 := by omega
    have h2 : b1 % 4 * 16 + b2 / 16 < 64 := by omega
    have h3 : b2 % 16 * 4 < 64 := by omega
    simp only [btoaList, atobList, if_neg (b64Alphabet_ne_pad _ h3), if_pos rfl]
    rw [b64Inv_b64Alphabet _ h1, b64Inv_b64Alphabet _ h2, b64Inv_b64Alphabet _ h3]
    have e1 : b1 / 4 * 4 + (b1 % 4 * 16 + b2 / 16) / 16 = b1 := by omega
    have e2 : (b1 % 4 * 16 + b2 / 16) % 16 * 16 + b2 % 16 * 4 / 4 = b2 := by omega
    rw [e1, e2]
    simp
  | b1 :: b2 :: b3 :: rest, h => by
    have hb1 : b1 < 256 := h b1 (by simp)
    have hb2 : b2 < 256 := h b2 (by simp)
    have hb3 : b3 < 256 := h b3 (by simp)
    have h1 : b1 / 4 < 64 := by omega
    have h2 : b1 % 4 * 16 + b2 / 16 < 64 := by omega
    have h3 : b2 % 16 * 4 + b3 / 64 < 64 := by omega
    have h4 : b3 % 64 < 64 := by omega
    have ih : atobList (btoaList rest) = rest :=
      atobList_btoaList rest (fun b hb => h b (by simp [hb]))
    simp only [btoaList, atobList, if_neg (b64Alphabet_ne_pad _ h3),
      if_neg (b64Alphabet_ne_pad _ h4)]
    rw [b64Inv_b64Alphabet _ h1, b64Inv_b64Alphabet _ h2, b64Inv_b64Alphabet _ h3,
      b64Inv_b64Alphabet _ h4, ih]
    have e1 : b1 / 4 * 4 + (b1 % 4 * 16 + b2 / 16) / 16 = b1 := by omega
    have e2 : (b1 % 4 * 16 + b2 / 16) % 16 * 16 + (b2 % 16 * 4 + b3 / 64) / 4 = b2 := by
      omega
    have e3 : (b2 % 16 * 4 + b3 / 64) % 4 * 64 + b3 % 64 = b3 := by omega
    rw [e1, e2, e3]

theorem ondataavailable_ne_zero (s : RecState) (b : List Nat)
    (hb : b ≠ []) (hidx : s.chunkIndex ≠ 0) :
    ondataavailable s b =
      (⟨s.webmHeader, s.chunkIndex + 1⟩,
       some (match s.webmHeader with | some h => h ++ b | none => b)) := by
  have hlen : ¬ b.length < 1 := by
    cases b with
    | nil => exact absurd rfl hb
    | cons x xs => simp
  simp only [ondataavailable, if_neg hlen, if_neg hidx]

theorem runBlocks_ne_zero (bs : List (List Nat)) :
    ∀ s : RecState, s.chunkIndex ≠ 0 → (∀ b ∈ bs, b ≠ []) →
      (runBlocks s bs).1.webmHeader = s.webmHeader ∧
      (runBlocks s bs).2 =
        bs.map (fun b => match s.webmHeader with | some h => h ++ b | none => b) := by
  induction bs with
  | nil => intro s _ _; exact ⟨rfl, rfl⟩
  | cons b bs ih =>
    intro s hidx hne
    have hb : b ≠ [] := hne b (by simp)
    have hstep := ondataavailable_ne_zero s b hb hidx
    have ih' := ih ⟨s.webmHeader, s.chunkIndex + 1⟩ (by simp) (fun x hx => hne x (by simp [hx]))
    simp only [runBlocks, hstep] at *
    exact ⟨ih'.1, by simp [ih'.1, ih'.2]⟩

theorem bgRunLog_stopped (evs : List BgEvent) :
    ∀ s : BgState, s.isRunning = false →
      (bgRunLog s evs).1.isRunning = false ∧ (bgRunLog s evs).2 = [] := by
  induction evs with
  | nil => intro s hs; exact ⟨hs, rfl⟩
  | cons e es ih =>
    intro s hs
    have hstep : (bgStepLog s e).1.isRunning = false ∧ (bgStepLog s e).2 = [] := by
      cases e with
      | socketClose =>
        cases hA : s.socketAttempt with
        | none => simp [bgStepLog, hA, hs]
        | some a => simp [bgStepLog, hA, hs]
      | reconnectFire =>
        cases hT : s.wsReconnectTimer with
        | none => simp [bgStepLog, hT, hs]
        | some p => simp [bgStepLog, hT, hs]
      | socketOpen => exact ⟨hs, rfl⟩
      | stopCapture => simp [bgStepLog, bgStopCapture]
    have ih' := ih (bgStepLog s e).1 hstep.1
    simp only [bgRunLog]
    exact ⟨ih'.1, by simp [hstep.2, ih'.2]⟩

/-! Section: Claim theorems -/

/-- C1 (confirmed). Header splicing: when the first produced block has its
first media-cluster marker `0x1F 0x43 0xB6 0x75` at byte offset `k > 0`, the
cached `webmHeader` equals bytes `[0, k)` of that block, and every later
block's payload sent downstream is exactly those `k` header bytes followed by
the raw block; when the marker does not occur in the first block
(`findClusterOffset` returns `-1`), no header is cached and every later block
is forwarded unmodified. -/
theorem claim_C1 (b0 : List Nat) (rest : List (List Nat))
    (hb0 : b0 ≠ []) (hrest : ∀ b ∈ rest, b ≠ []) :
    (∀ k : Nat, 0 < k → findClusterOffset b0 = (k : Int) →
      (runBlocks recInitial (b0 :: rest)).1.webmHeader = some (b0.take k) ∧
      (runBlocks recInitial (b0 :: rest)).2 = b0 :: rest.map (fun b => b0.take k ++ b)) ∧
    (findClusterOffset b0 = -1 →
      (runBlocks recInitial (b0 :: rest)).1.webmHeader = none ∧
      (runBlocks recInitial (b0 :: rest)).2 = b0 :: rest) := by
  have hlen : ¬ b0.length < 1 := by
    cases b0 with
    | nil => exact absurd rfl hb0
    | cons x xs => simp
  constructor
  · intro k hk hfind
    have hpos : (0 : Int) < (k : Int) := by exact_mod_cast hk
    have hstep : ondataavailable recInitial b0 = (⟨some (b0.take k), 1⟩, some b0) := by
      simp [ondataavailable, recInitial, if_neg hlen, hfind, hpos, hb0]
    have hrun := runBlocks_ne_zero rest ⟨some (b0.take k), 1⟩ (by simp) hrest
    refine ⟨?_, ?_⟩
    · simp only [runBlocks, hstep]
      exact hrun.1
    · simp only [runBlocks, hstep]
      simp [hrun.2]
  · intro hfind
    have hstep : ondataavailable recInitial b0 = (⟨none, 1⟩, some b0) := by
      simp [ondataavailable, recInitial, if_neg hlen, hfind, hb0]
    have hrun := runBlocks_ne_zero rest ⟨none, 1⟩ (by simp) hrest
    refine ⟨?_, ?_⟩
    · simp only [runBlocks, hstep]
      exact hrun.1
    · simp only [runBlocks, hstep]
      simp [hrun.2]

theorem claim_C1_witness :
    (runBlocks recInitial [[9, 0x1F, 0x43, 0xB6, 0x75, 8], [5], [6]]).1.webmHeader =
      some ([9, 0x1F, 0x43, 0xB6, 0x75, 8].take 1) ∧
    (runBlocks recInitial [[9, 0x1F, 0x43, 0xB6, 0x75, 8], [5], [6]]).2 =
      [9, 0x1F, 0x43, 0xB6, 0x75, 8] ::
        [[5], [6]].map (fun b => [9, 0x1F, 0x43, 0xB6, 0x75, 8].take 1 ++ b) :=
  (claim_C1 [9, 0x1F, 0x43, 0xB6, 0x75, 8] [[5], [6]] (by decide) (by decide)).1
    1 (by decide) (by decide)

/-- C9 (confirmed). Cross-process payload round-trip: for every byte list
(each entry `< 256`, as `Uint8Array` entries are), the controller's base64
decode in `handleAudioChunk` inverts the capturer's `arrayBufferToBase64`, so
the binary frame written to the socket is byte-for-byte the segment bytes the
capturer produced. -/
theorem claim_C9 (payload : List Nat) (h : ∀ b ∈ payload, b < 256) :
    decodeChunkBytes (arrayBufferToBase64 payload) = payload :=
  atobList_btoaList payload h

theorem claim_C9_witness :
    decodeChunkBytes (arrayBufferToBase64 [9, 0x1F, 0x43, 0xB6, 0x75, 0, 255]) =
      [9, 0x1F, 0x43, 0xB6, 0x75, 0, 255] :=
  claim_C9 [9, 0x1F, 0x43, 0xB6, 0x75, 0, 255] (by decide)

/-- C10 (confirmed). When the first block starts with the media-cluster
marker (offset 0), the guard `clusterOffset > 0` fails, so no header is
cached and every subsequent block is forwarded unmodified, exactly as in the
marker-absent passthrough case. -/
theorem claim_C10 (b0 : List Nat) (rest : List (List Nat))
    (hb0 : b0 ≠ []) (hrest : ∀ b ∈ rest, b ≠ [])
    (hfind : findClusterOffset b0 = 0) :
    (runBlocks recInitial (b0 :: rest)).1.webmHeader = none ∧
    (runBlocks recInitial (b0 :: rest)).2 = b0 :: rest := by
  have hlen : ¬ b0.length < 1 := by
    cases b0 with
    | nil => exact absurd rfl hb0
    | cons x xs => simp
  have hstep : ondataavailable recInitial b0 = (⟨none, 1⟩, some b0) := by
    simp [ondataavailable, recInitial, if_neg hlen, hfind, hb0]
  have hrun := runBlocks_ne_zero rest ⟨none, 1⟩ (by simp) hrest
  refine ⟨?_, ?_⟩
  · simp only [runBlocks, hstep]
    exact hrun.1
  · simp only [runBlocks, hstep]
    simp [hrun.2]

theorem claim_C10_witness :
    (runBlocks recInitial [[0x1F, 0x43, 0xB6, 0x75, 8], [7]]).1.webmHeader = none ∧
    (runBlocks recInitial [[0x1F, 0x43, 0xB6, 0x75, 8], [7]]).2 =
      [0x1F, 0x43, 0xB6, 0x75, 8] :: [[7]] :=
  claim_C10 [0x1F, 0x43, 0xB6, 0x75, 8] [[7]] (by decide) (by decide) (by decide)

/-- C2 (corrected) — counterexample to the claim as stated. Start from a
session whose initial connection opened with `attempt = 0`. The connection
closes unexpectedly, the 2000 ms reconnect timer fires and reconnects with
`attempt = 1`, the new socket opens successfully, and then closes
unexpectedly. The claim says the successful open reset the counter, so this
close should schedule a 2000 ms delay; the code schedules
`min(2000 * 2^1, 12000) = 4000` ms, because the closed socket's `onclose`
closure still holds `attempt = 1`. -/
theorem claim_C2_counterexample :
    (bgRunLog ⟨true, some 0, none, true, some 1⟩
        [BgEvent.socketClose, BgEvent.reconnectFire, BgEvent.socketOpen,
         BgEvent.socketClose]).1.wsReconnectTimer = some (4000, 2) ∧
    ¬ (bgRunLog ⟨true, some 0, none, true, some 1⟩
        [BgEvent.socketClose, BgEvent.reconnectFire, BgEvent.socketOpen,
         BgEvent.socketClose]).1.wsReconnectTimer = some (2000, 2) := by
  decide

/-- C2 (corrected) — amended claim. A successful Open does not change the
reconnect attempt counter: `onopen` leaves every modelled field unchanged,
and the attempt value is captured per connection by its handlers. After a
connection whose handlers captured attempt value `a`, the next unexpected
close while running schedules delay `min(2000 * 2^a, 12000)` (and next
attempt `a + 1`); this is 2000 ms only for a connection opened with
`a = 0`, i.e. the initial `openWebSocket(url)` call of a `start`. -/
theorem claim_C2 :
    (∀ s : BgState, bgStepLog s BgEvent.socketOpen = (s, [])) ∧
    (∀ (s : BgState) (a : Nat), s.isRunning = true → s.socketAttempt = some a →
      (bgStepLog s BgEvent.socketClose).1.wsReconnectTimer =
        some (backoffDelay a, a + 1)) := by
  constructor
  · intro s
    rfl
  · intro s a hrun hA
    simp [bgStepLog, hA, hrun]

theorem claim_C2_witness :
    bgStepLog ⟨true, some 1, none, true, none⟩ BgEvent.socketOpen =
      (⟨true, some 1, none, true, none⟩, []) ∧
    (bgStepLog ⟨true, some 1, none, true, none⟩ BgEvent.socketClose).1.wsReconnectTimer =
      some (backoffDelay 1, 2) :=
  ⟨claim_C2.1 ⟨true, some 1, none, true, none⟩,
   claim_C2.2 ⟨true, some 1, none, true, none⟩ 1 rfl rfl⟩

/-- C3 (corrected) — counterexample to the claim as stated. With an active
tab present and a socket that never settles before the 7000 ms deadline, the
`START_CAPTURE` request is answered with `{ok: false, error: "timeout"}` —
that half of the claim holds — but the session does not return to Idle: the
`catch` branch of the listener performs no teardown, so `isRunning` is still
`true` afterwards (the claim requires it to be `false`, the controller's
Idle). -/
theorem claim_C3_counterexample :
    (handleStartMessage bgInitial ⟨some 1, [], Except.ok 7, some (Except.ok ())⟩).2 =
      ⟨false, some "timeout"⟩ ∧
    ¬ (handleStartMessage bgInitial
        ⟨some 1, [], Except.ok 7, some (Except.ok ())⟩).1.isRunning = false := by
  decide

/-- C3 (corrected) — amended claim. A connection attempt that has not
settled (neither `onopen` nor `onerror`) before the fixed 7000 ms deadline is
aborted and fails with the `"timeout"` error; when the channel open during
`start` fails that way, the start request resolves with
`{ok: false, error: "timeout"}`, but the session does not return to Idle:
`isRunning` remains `true` and no teardown runs (no media capability had been
acquired at that point, since the stream id is requested only after the
channel opens). -/
theorem claim_C3 :
    (∀ evts : List (Nat × ConnEvt), (∀ p ∈ evts, wsConnectTimeoutMs ≤ p.1) →
      settleOpen evts = Except.error "timeout") ∧
    (∀ (s : BgState) (env : StartEnv) (tabId : Nat),
      env.activeTab = some tabId →
      (∀ p ∈ env.connEvents, wsConnectTimeoutMs ≤ p.1) →
      (handleStartMessage s env).2 = ⟨false, some "timeout"⟩ ∧
      (handleStartMessage s env).1.isRunning = true) := by
  have hsettle : ∀ evts : List (Nat × ConnEvt), (∀ p ∈ evts, wsConnectTimeoutMs ≤ p.1) →
      settleOpen evts = Except.error "timeout" := by
    intro evts h
    cases evts with
    | nil => rfl
    | cons p rest =>
      obtain ⟨t, e⟩ := p
      have ht : wsConnectTimeoutMs ≤ t := h (t, e) (by simp)
      simp [settleOpen, Nat.not_lt.mpr ht]
  refine ⟨hsettle, ?_⟩
  intro s env tabId hTab hEvents
  have hs := hsettle env.connEvents hEvents
  cases hR : s.isRunning <;>
    simp [handleStartMessage, startCapture, hTab, hs, hR]

theorem claim_C3_witness :
    (handleStartMessage ⟨true, some 0, some (2000, 1), true, some 3⟩
        ⟨some 2, [(8000, ConnEvt.opened)], Except.ok 5, some (Except.ok ())⟩).2 =
      ⟨false, some "timeout"⟩ ∧
    (handleStartMessage ⟨true, some 0, some (2000, 1), true, some 3⟩
        ⟨some 2, [(8000, ConnEvt.opened)], Except.ok 5, some (Except.ok ())⟩).1.isRunning =
      true :=
  claim_C3.2 ⟨true, some 0, some (2000, 1), true, some 3⟩
    ⟨some 2, [(8000, ConnEvt.opened)], Except.ok 5, some (Except.ok ())⟩ 2 rfl (by decide)

/-- C4 (confirmed). A `stop` issued while a reconnect backoff timer is
pending results in no reconnection attempt firing afterwards: after
`stopCapture`, no sequence of later close/timer events ever performs an
`openWebSocket` call (empty open log) and the session stays not running.
Moreover the guard is checked when the timer fires, not only at schedule
time: even a still-pending timer firing in a not-running state performs no
open (it is merely consumed). -/
theorem claim_C4 :
    (∀ (s : BgState) (p : Nat × Nat) (evs : List BgEvent),
      s.wsReconnectTimer = some p →
      (bgRunLog (bgStopCapture s) evs).2 = [] ∧
      (bgRunLog (bgStopCapture s) evs).1.isRunning = false) ∧
    (∀ (s : BgState) (p : Nat × Nat), s.isRunning = false → s.wsReconnectTimer = some p →
      bgStepLog s BgEvent.reconnectFire = ({ s with wsReconnectTimer := none }, [])) := by
  constructor
  · intro s p evs _
    have h := bgRunLog_stopped evs (bgStopCapture s) rfl
    exact ⟨h.2, h.1⟩
  · intro s p hrun hT
    simp [bgStepLog, hT, hrun]

theorem claim_C4_witness :
    ((bgRunLog (bgStopCapture ⟨true, some 2, some (8000, 3), true, some 1⟩)
        [BgEvent.reconnectFire, BgEvent.socketClose, BgEvent.reconnectFire]).2 = [] ∧
      (bgRunLog (bgStopCapture ⟨true, some 2, some (8000, 3), true, some 1⟩)
        [BgEvent.reconnectFire, BgEvent.socketClose, BgEvent.reconnectFire]).1.isRunning =
        false) ∧
    bgStepLog ⟨false, some 2, some (8000, 3), false, none⟩ BgEvent.reconnectFire =
      (⟨false, some 2, none, false, none⟩, []) :=
  ⟨claim_C4.1 ⟨true, some 2, some (8000, 3), true, some 1⟩ (8000, 3)
      [BgEvent.reconnectFire, BgEvent.socketClose, BgEvent.reconnectFire] rfl,
   claim_C4.2 ⟨false, some 2, some (8000, 3), false, none⟩ (8000, 3) rfl rfl⟩

/-- C5 (confirmed). The reconnect delay for attempts 0,1,2,3,4 is exactly
2000, 4000, 8000, 12000, 12000 ms, and the 12000 ms cap holds for every
attempt ≥ 3. -/
theorem claim_C5 :
    backoffDelay 0 = 2000 ∧ backoffDelay 1 = 4000 ∧ backoffDelay 2 = 8000 ∧
    backoffDelay 3 = 12000 ∧ backoffDelay 4 = 12000 ∧
    ∀ a : Nat, 3 ≤ a → backoffDelay a = 12000 := by
  refine ⟨by decide, by decide, by decide, by decide, by decide, ?_⟩
  intro a ha
  have h8 : (8 : Nat) ≤ 2 ^ a := by
    calc (8 : Nat) = 2 ^ 3 := by norm_num
    _ ≤ 2 ^ a := Nat.pow_le_pow_right (by norm_num) ha
  unfold backoffDelay
  omega

theorem claim_C5_witness : backoffDelay 7 = 12000 :=
  claim_C5.2.2.2.2.2 7 (by decide)

/-- C6 (confirmed). Stop is idempotent. For the capturer: a second
`stopCapture` call right after a first one leaves the state exactly as after
the first and performs zero `recorder.stop()` and zero `track.stop()`
(capability-release) calls; calling `stopCapture` when not started is a
no-op. For the controller: `stopCapture` twice yields the same end state as
once. -/
theorem claim_C6 :
    (∀ s : OffState,
      offStopCapture (offStopCapture s).1 = ((offStopCapture s).1, ⟨0, 0⟩)) ∧
    offStopCapture offInitial = (offInitial, ⟨0, 0⟩) ∧
    ∀ s : BgState, bgStopCapture (bgStopCapture s) = bgStopCapture s :=
  ⟨fun _ => rfl, rfl, fun _ => rfl⟩

/-- C7 (confirmed). An inbound subtitle event whose text trims to the empty
string (such as `""` or `"   "`) never reaches the renderer: the background
relays no `SUBTITLE` message for it, and even if such a message did arrive,
the content script's listener would leave the renderer state untouched. -/
theorem claim_C7 (msg : ServerMsg) (t : List Char)
    (htext : msg.text = some t) (htrim : jsTrim t = []) :
    handleServerMessage msg = none ∧
    ∀ st : RendererState, rendererOnSubtitle st (some t) = st := by
  constructor
  · unfold handleServerMessage
    rw [htext]
    by_cases hev : msg.event = "subtitle".toList
    · simp [hev, htrim]
    · simp [hev, htrim]
  · intro st
    simp [rendererOnSubtitle, htrim]

theorem claim_C7_witness :
    handleServerMessage ⟨"subtitle".toList, some "   ".toList⟩ = none ∧
    rendererOnSubtitle ⟨false, [], none⟩ (some "   ".toList) = ⟨false, [], none⟩ :=
  ⟨(claim_C7 ⟨"subtitle".toList, some "   ".toList⟩ "   ".toList rfl (by decide)).1,
   (claim_C7 ⟨"subtitle".toList, some "   ".toList⟩ "   ".toList rfl (by decide)).2
     ⟨false, [], none⟩⟩

/-- C8 (confirmed). The caption presentation timer for a displayed text of
length `L` is exactly `max 2500 (L * 55)` ms — 2500 ms for 10 characters,
3300 ms for 60 — and a later `showSubtitle` replaces the prior caption and
restarts the timer regardless of the previous state (the result is
independent of it); the listener invokes `showSubtitle` on the trimmed text
whenever that trim is non-empty. -/
theorem claim_C8 :
    (∀ t : List Char, t.length = 10 → captionDurationMs t = 2500) ∧
    (∀ t : List Char, t.length = 60 → captionDurationMs t = 3300) ∧
    (∀ (st st' : RendererState) (t : List Char), showSubtitle st t = showSubtitle st' t) ∧
    (∀ (st : RendererState) (t : List Char),
      (showSubtitle st t).hideTimer = some (captionDurationMs t)) ∧
    (∀ (st : RendererState) (t : List Char), jsTrim t ≠ [] →
      rendererOnSubtitle st (some t) = showSubtitle st (jsTrim t)) := by
  refine ⟨?_, ?_, fun _ _ _ => rfl, fun _ _ => rfl, ?_⟩
  · intro t ht
    simp [captionDurationMs, ht]
  · intro t ht
    simp [captionDurationMs, ht]
  · intro st t ht
    simp [rendererOnSubtitle, ht]

theorem claim_C8_witness :
    captionDurationMs (List.replicate 10 'a') = 2500 ∧
    captionDurationMs (List.replicate 60 'a') = 3300 ∧
    showSubtitle ⟨false, [], none⟩ "hi".toList =
      showSubtitle ⟨true, "x".toList, some 99⟩ "hi".toList ∧
    (showSubtitle ⟨false, [], none⟩ "hi".toList).hideTimer =
      some (captionDurationMs "hi".toList) ∧
    rendererOnSubtitle ⟨false, [], none⟩ (some " hi ".toList) =
      showSubtitle ⟨false, [], none⟩ (jsTrim " hi ".toList) :=
  ⟨claim_C8.1 (List.replicate 10 'a') (by decide),
   claim_C8.2.1 (List.replicate 60 'a') (by decide),
   claim_C8.2.2.1 ⟨false, [], none⟩ ⟨true, "x".toList, some 99⟩ "hi".toList,
   claim_C8.2.2.2.1 ⟨false, [], none⟩ "hi".toList,
   claim_C8.2.2.2.2 ⟨false, [], none⟩ " hi ".toList (by decide)⟩

end HebrewSubtitles
